import Mathlib

/-!
Shallow embedding of `lxc_autoscale/lxc_utils.py`.

The command executor (`run_command`, which dispatches to a local subprocess
or a remote SSH channel and returns the trimmed output string, or Python
`None` on timeout / nonzero exit / transport failure) is modelled as a
function `Exec : String → Option String` from the command text to its
optional output; `none` is the absent result the Python code receives on
any executor failure.

Python exceptions that escape a function are modelled with `Except String`
(the error string names the Python exception class); functions whose body
catches every exception are total.  Python `float` values are modelled as
`Rat` (all arithmetic in the source is on values read from text, no
rounding-sensitive operations occur).  `int(s)` / `float(s)` are modelled
on canonical decimal literals (optional leading minus sign, digits,
optionally a dot and digits for `float`), which covers every string the
probed commands produce; any other string is a parse failure
(`ValueError`), exactly as in Python.  Log lines emitted via `logging` are
returned explicitly as `List String` where a claim depends on them.
-/

/-- Numeric value of a list of decimal digit characters. -/
def digitsVal (cs : List Char) : Nat :=
  cs.foldl (fun a c => 10 * a + (c.toNat - 48)) 0

/-- Parse a nonempty all-digit character list as a natural number. -/
def parseNatDigits (cs : List Char) : Option Nat :=
  if cs ≠ [] ∧ cs.all Char.isDigit then some (digitsVal cs) else none

/-- Python `int(s)` on a canonical decimal integer literal: optional minus
sign followed by digits; any other shape raises `ValueError` (`none`). -/
def pyIntOfString (s : String) : Option Int :=
  match s.toList with
  | '-' :: rest => (parseNatDigits rest).map (fun n => -(n : Int))
  | cs => (parseNatDigits cs).map (fun n => (n : Int))

/-- Magnitude part of a Python `float` literal: digits, optionally followed
by a dot and digits. -/
def parseFloatMag (cs : List Char) : Option Rat :=
  match cs.span (fun c => c ≠ '.') with
  | (intPart, []) => (parseNatDigits intPart).map (fun n => (n : Rat))
  | (intPart, _dot :: fracPart) =>
    if intPart ≠ [] ∧ intPart.all Char.isDigit ∧ fracPart ≠ [] ∧ fracPart.all Char.isDigit then
      some ((digitsVal intPart : Rat) + (digitsVal fracPart : Rat) / ((10 : Rat) ^ fracPart.length))
    else none

/-- Python `float(s)` on a canonical decimal literal: optional minus sign,
digits, optionally a dot and digits; any other shape raises `ValueError`
(`none`). -/
def pyFloatOfString (s : String) : Option Rat :=
  match s.toList with
  | '-' :: rest => (parseFloatMag rest).map (fun q => -q)
  | cs => parseFloatMag cs

/-- Python truthiness of an optional string: `None` and the empty string
are falsy, every other string is truthy. -/
def pyTruthy : Option String → Bool
  | none => false
  | some s => !s.isEmpty

/-- Python `int()` applied to a rational: truncation toward zero. -/
def pyTrunc (q : Rat) : Int :=
  if 0 ≤ q then ⌊q⌋ else ⌈q⌉

/-- The command executor abstraction: `run_command` as a map from command
text to optional trimmed output (`none` = executor failure). -/
abbrev Exec := String → Option String

/-- Split a character list at newline characters. -/
def splitOnNewlines : List Char → List (List Char)
  | [] => [[]]
  | c :: rest =>
    if c = '\n' then [] :: splitOnNewlines rest
    else
      match splitOnNewlines rest with
      | [] => [[c]]
      | l :: ls => (c :: l) :: ls

/-- Python `str.splitlines()` restricted to the executor's trimmed output
(newline-separated, no trailing newline): the empty string yields `[]`. -/
def splitLines (s : String) : List String :=
  if s.isEmpty then [] else (splitOnNewlines s.toList).map (fun cs => String.mk cs)

/-- Whether `p` is an initial segment of `cs`. -/
def charsLeadSegment : List Char → List Char → Bool
  | [], _ => true
  | _ :: _, [] => false
  | p :: ps, c :: cs => p = c && charsLeadSegment ps cs

/-- Whether `pat` occurs contiguously inside `hay`: Python `pat in hay` on
strings, over character lists. -/
def charsContains (hay pat : List Char) : Bool :=
  match hay with
  | [] => pat.isEmpty
  | _ :: rest => charsLeadSegment pat hay || charsContains rest pat

/-- The `pct list` pipeline used by `get_containers`. -/
def listContainersCmd : String := "pct list | awk \x27NR>1 \x7bprint $1\x7d\x27"

/-- The `pct status` query used by `is_container_running`. -/
def statusCmd (ctid : String) : String := "pct status " ++ ctid

/-- The single CPU-estimation command of `get_cpu_usage`. -/
def cpuCmd (ctid : String) : String :=
  "pct exec " ++ ctid ++
    " -- awk -v cores=$(nproc) \x27\x7busage+=$1\x7d END \x7bprint usage/cores\x7d\x27 /proc/stat"

/-- The used-memory query of `get_memory_usage`. -/
def memUsedCmd (ctid : String) : String :=
  "pct exec " ++ ctid ++
    " -- awk \x27/MemTotal/ \x7btotal=$2\x7d /MemAvailable/ \x7bfree=$2\x7d END \x7bprint total-free\x7d\x27 /proc/meminfo"

/-- The total-memory query of `get_memory_usage`. -/
def memTotalCmd (ctid : String) : String :=
  "pct exec " ++ ctid ++ " -- awk \x27/MemTotal/ \x7bprint $2\x7d\x27 /proc/meminfo"

/-- The cores line of `pct config` used by `get_container_data`. -/
def configCoresCmd (ctid : String) : String :=
  "pct config " ++ ctid ++ " | grep cores | awk \x27\x7bprint $2\x7d\x27"

/-- The memory line of `pct config` used by `get_container_data`. -/
def configMemoryCmd (ctid : String) : String :=
  "pct config " ++ ctid ++ " | grep memory | awk \x27\x7bprint $2\x7d\x27"

/-- `get_containers()`: runs the `pct list` pipeline and filters the ignore
list.  When the executor returns `None` the Python code calls
`None.splitlines()`, which raises `AttributeError`; this is modelled as
`Except.error`. -/
def get_containers (exec : Exec) (ignoreLxc : List String) : Except String (List String) :=
  match exec listContainersCmd with
  | none => .error "AttributeError"
  | some out => .ok ((splitLines out).filter (fun ctid => ctid ∉ ignoreLxc))

/-- `is_container_running(ctid)`: truthy status output containing the
substring `status: running` after lowercasing.  An absent executor result
is falsy, hence not running. -/
def is_container_running (exec : Exec) (ctid : String) : Bool :=
  match exec (statusCmd ctid) with
  | none => false
  | some status =>
    !status.isEmpty &&
      charsContains (status.toList.map Char.toLower) ("status: running".toList)

/-- `get_cpu_usage(ctid)`: runs the single estimation command; if the
executor result is present and parses as a float it is returned unchanged,
otherwise `0.0` is returned together with the error log lines. -/
def get_cpu_usage (exec : Exec) (ctid : String) : Rat × List String :=
  match exec (cpuCmd ctid) with
  | some usage =>
    match pyFloatOfString usage with
    | some v => (v, [])
    | none =>
      (0, ["Failed to convert CPU usage to float for container " ++ ctid,
           "Failed to retrieve CPU usage for container " ++ ctid])
  | none => (0, ["Failed to retrieve CPU usage for container " ++ ctid])

/-- `get_memory_usage(ctid)`: reads used and total memory; if both results
are truthy and both parse as ints the percentage is computed — the
`except ValueError` clause does not catch `ZeroDivisionError`, so a zero
total raises (modelled as `Except.error`).  Falsy results or `ValueError`
fall through to `0.0` with log lines. -/
def get_memory_usage (exec : Exec) (ctid : String) : Except String (Rat × List String) :=
  let memUsed := exec (memUsedCmd ctid)
  let memTotal := exec (memTotalCmd ctid)
  if pyTruthy memUsed && pyTruthy memTotal then
    match pyIntOfString (memUsed.getD ""), pyIntOfString (memTotal.getD "") with
    | some u, some t =>
      if t = 0 then .error "ZeroDivisionError"
      else .ok (((u : Rat) * 100) / (t : Rat), [])
    | _, _ =>
      .ok (0, ["Failed to calculate memory usage for container " ++ ctid,
               "Failed to retrieve memory usage for container " ++ ctid])
  else .ok (0, ["Failed to retrieve memory usage for container " ++ ctid])

/-- The `{"cores": int, "memory": int}` JSON object held by one backup
file. -/
structure ContainerSettings where
  cores : Int
  memory : Int
deriving Repr, DecidableEq

/-- The backup directory: one JSON file per container id, modelled as a map
from container id to the settings stored in its `{ctid}_backup.json` file
(`none` = file absent).  JSON serialization of this two-integer-field
object round-trips exactly, so the file content is modelled by the value. -/
abbrev BackupStore := String → Option ContainerSettings

/-- `backup_container_settings(ctid, settings)`: overwrites the backup file
for `ctid` under the ledger lock. -/
def backup_container_settings (store : BackupStore) (ctid : String)
    (settings : ContainerSettings) : BackupStore :=
  fun k => if k = ctid then some settings else store k

/-- `load_backup_settings(ctid)`: returns the stored settings, or `none`
with a warning log line when no backup file exists. -/
def load_backup_settings (store : BackupStore) (ctid : String) :
    Option ContainerSettings × List String :=
  match store ctid with
  | some s => (some s, [])
  | none => (none, ["No backup found for container " ++ ctid])

/-- `rollback_container_settings(ctid)`: loads the backup; if present,
issues the two `pct set` restore commands (returned in issue order) and
leaves the store unchanged; otherwise issues nothing and surfaces the
warning from `load_backup_settings`. -/
def rollback_container_settings (store : BackupStore) (ctid : String) :
    BackupStore × List String × List String :=
  match load_backup_settings store ctid with
  | (some settings, _) =>
    (store,
     ["pct set " ++ ctid ++ " -cores " ++ toString settings.cores,
      "pct set " ++ ctid ++ " -memory " ++ toString settings.memory],
     [])
  | (none, warnings) => (store, [], warnings)

/-- The per-container data dictionary produced by `get_container_data`:
keys `cpu`, `mem`, `initial_cores`, `initial_memory`, always all
present. -/
structure ContainerData where
  cpu : Rat
  mem : Rat
  initial_cores : Int
  initial_memory : Int
deriving Repr, DecidableEq

/-- `get_container_data(ctid)`: skips ignored and non-running containers;
otherwise reads the configured cores and memory (a `None` executor result
or unparseable output raises inside the `try`, caught → `none`), then
probes CPU and memory (`get_memory_usage` may raise `ZeroDivisionError`,
also caught by the same `except Exception` → `none`).  The backup write of
the settings is a side effect on the backup store modelled separately by
`backup_container_settings`; it never fails the pipeline (its own
exceptions are caught inside it) and does not affect the returned data. -/
def get_container_data (exec : Exec) (ignoreLxc : List String) (ctid : String) :
    Option ContainerData :=
  if ctid ∈ ignoreLxc then none
  else if !is_container_running exec ctid then none
  else
    match (exec (configCoresCmd ctid)).bind pyIntOfString,
          (exec (configMemoryCmd ctid)).bind pyIntOfString with
    | some cores, some memory =>
      match get_memory_usage exec ctid with
      | .error _ => none
      | .ok (mem, _) =>
        some { cpu := (get_cpu_usage exec ctid).1
               mem := mem
               initial_cores := cores
               initial_memory := memory }
    | _, _ => none

/-- The result-accumulation loop of `collect_container_data`, abstracted
over the per-container pipeline: each future's outcome is an exception
(caught and logged, container dropped), no data (container dropped), or a
data dictionary (inserted under its container id).  The thread pool's
completion order only permutes dictionary insertions under distinct keys,
so the inventory order is used. -/
def collectFromPipeline (pipeline : String → Except String (Option ContainerData))
    (ids : List String) : List (String × ContainerData) :=
  ids.foldl (fun acc ctid =>
    match pipeline ctid with
    | .ok (some d) => acc ++ [(ctid, d)]
    | .ok none => acc
    | .error _ => acc) []

/-- `collect_container_data()`: lists containers (an `AttributeError` from
`get_containers` is not caught and propagates) and accumulates the
per-container pipelines; `get_container_data` itself never raises. -/
def collect_container_data (exec : Exec) (ignoreLxc : List String) :
    Except String (List (String × ContainerData)) :=
  match get_containers exec ignoreLxc with
  | .error e => .error e
  | .ok ids =>
    .ok (collectFromPipeline (fun ctid => .ok (get_container_data exec ignoreLxc ctid)) ids)

/-- An entry of the dictionary handed to `prioritize_containers`, viewed
through the two keys the sort key accesses: `none` models a missing
dictionary key (whose access raises `KeyError`). -/
structure PrioEntry where
  cpu : Option Rat
  mem : Option Rat
deriving Repr, DecidableEq

/-- The sort key `(item[1]['cpu'], item[1]['mem'])`, defined on entries
whose two keys are present (guarded at every use). -/
def entryKey (e : PrioEntry) : Rat × Rat := (e.cpu.getD 0, e.mem.getD 0)

/-- Python tuple comparison `a <= b` on pairs: lexicographic. -/
def tupleLe (a b : Rat × Rat) : Bool :=
  a.1 < b.1 || (a.1 = b.1 && a.2 ≤ b.2)

/-- The comparison underlying `sorted(..., key=..., reverse=True)`: `x`
may precede `y` when `y`'s key is lexicographically at most `x`'s
(descending, stable for equal keys). -/
def prioGe (x y : String × PrioEntry) : Bool :=
  tupleLe (entryKey y.2) (entryKey x.2)

/-- `prioritize_containers(containers)`: empty input yields `[]`; if every
entry has both keys, the entries are stably sorted descending by
`(cpu, mem)`; if any key access would raise `KeyError`, the
`except Exception` clause returns `[]`. -/
def prioritize_containers (containers : List (String × PrioEntry)) :
    List (String × PrioEntry) :=
  if containers.isEmpty then []
  else if containers.all (fun p => p.2.cpu.isSome && p.2.mem.isSome) then
    containers.mergeSort prioGe
  else []

/-- `get_total_cores()`: parses `nproc` (a `None` result raises `TypeError`
through `int(None)`, unparseable output raises `ValueError`, neither is
caught), reserves `max(1, int(total * reserve_percent / 100))` cores and
returns the rest.  `reserve_cpu_percent` is the configured
`DEFAULTS['reserve_cpu_percent']`. -/
def get_total_cores (exec : Exec) (reserveCpuPercent : Rat) : Except String Int :=
  match exec "nproc" with
  | none => .error "TypeError"
  | some out =>
    match pyIntOfString out with
    | none => .error "ValueError"
    | some totalCores =>
      .ok (totalCores - max 1 (pyTrunc ((totalCores : Rat) * reserveCpuPercent / 100)))

/-! ## Helper lemmas -/

theorem tupleLe_iff (a b : Rat × Rat) :
    tupleLe a b = true ↔ a.1 < b.1 ∨ (a.1 = b.1 ∧ a.2 ≤ b.2) := by
  simp [tupleLe]

theorem tupleLe_trans (a b c : Rat × Rat)
    (hab : tupleLe a b = true) (hbc : tupleLe b c = true) : tupleLe a c = true := by
  rw [tupleLe_iff] at hab hbc ⊢
  rcases hab with h1 | ⟨h1, h1m⟩ <;> rcases hbc with h2 | ⟨h2, h2m⟩
  · exact Or.inl (h1.trans h2)
  · exact Or.inl (h2 ▸ h1)
  · exact Or.inl (h1 ▸ h2)
  · exact Or.inr ⟨h1.trans h2, h1m.trans h2m⟩

theorem tupleLe_total (a b : Rat × Rat) :
    (tupleLe a b || tupleLe b a) = true := by
  rw [Bool.or_eq_true, tupleLe_iff, tupleLe_iff]
  rcases lt_trichotomy a.1 b.1 with h | h | h
  · exact Or.inl (Or.inl h)
  · rcases le_total a.2 b.2 with hm | hm
    · exact Or.inl (Or.inr ⟨h, hm⟩)
    · exact Or.inr (Or.inr ⟨h.symm, hm⟩)
  · exact Or.inr (Or.inl h)

theorem prioGe_trans (a b c : String × PrioEntry)
    (hab : prioGe a b = true) (hbc : prioGe b c = true) : prioGe a c = true :=
  tupleLe_trans _ _ _ hbc hab

theorem prioGe_total (a b : String × PrioEntry) :
    (prioGe a b || prioGe b a) = true := by
  have := tupleLe_total (entryKey b.2) (entryKey a.2)
  rw [Bool.or_eq_true] at this ⊢
  exact this.imp (fun h => h) (fun h => h)

theorem pyTrunc_of_nonneg (q : Rat) (h : 0 ≤ q) : pyTrunc q = ⌊q⌋ :=
  if_pos h

theorem collectFromPipeline_eq
    (pipeline : String → Except String (Option ContainerData)) (ids : List String) :
    collectFromPipeline pipeline ids =
      ids.filterMap (fun ctid =>
        match pipeline ctid with
        | .ok (some d) => some (ctid, d)
        | .ok none => none
        | .error _ => none) := by
  unfold collectFromPipeline
  suffices h : ∀ (l : List String) (acc : List (String × ContainerData)),
      l.foldl (fun acc ctid =>
        match pipeline ctid with
        | .ok (some d) => acc ++ [(ctid, d)]
        | .ok none => acc
        | .error _ => acc) acc =
      acc ++ l.filterMap (fun ctid =>
        match pipeline ctid with
        | .ok (some d) => some (ctid, d)
        | .ok none => none
        | .error _ => none) by
    simpa using h ids []
  intro l
  induction l with
  | nil => intro acc; simp
  | cons x xs ih =>
    intro acc
    rw [List.foldl_cons, List.filterMap_cons]
    cases hx : pipeline x with
    | error e => simp [ih]
    | ok od => cases od <;> simp [ih]

/-! ## Claim theorems -/

/-- Claim C5: for every metrics map (every entry carrying both the `cpu`
and the `mem` key), `prioritize_containers` returns a permutation of the
map's entries that is sorted in descending lexicographic order of
`(cpu, mem)`, and the empty map yields the empty list rather than an
error. -/
theorem claim_C5_prioritize_sorted (m : List (String × PrioEntry))
    (h : m.all (fun p => p.2.cpu.isSome && p.2.mem.isSome) = true) :
    (prioritize_containers m).Perm m ∧
    (prioritize_containers m).Pairwise
      (fun a b => tupleLe (entryKey b.2) (entryKey a.2) = true) ∧
    prioritize_containers ([] : List (String × PrioEntry)) = [] := by
  refine ⟨?_, ?_, rfl⟩
  · unfold prioritize_containers
    by_cases he : m.isEmpty
    · rw [if_pos he]
      rw [List.isEmpty_iff] at he
      simp [he]
    · rw [if_neg he, if_pos h]
      exact List.mergeSort_perm m prioGe
  · unfold prioritize_containers
    by_cases he : m.isEmpty
    · rw [if_pos he]; exact List.Pairwise.nil
    · rw [if_neg he, if_pos h]
      exact @List.sorted_mergeSort _ prioGe prioGe_trans prioGe_total m

/-- Concrete metrics map used by the witness of the `prioritize_containers`
ordering claim. -/
def prioExample : List (String × PrioEntry) :=
  [("101", { cpu := some 10, mem := some 5 }),
   ("102", { cpu := some 20, mem := some 1 }),
   ("103", { cpu := some 10, mem := some 9 })]

/-- Witness for claim C5 at a concrete three-entry map. -/
theorem claim_C5_witness :
    (prioritize_containers prioExample).Perm prioExample ∧
    (prioritize_containers prioExample).Pairwise
      (fun a b => tupleLe (entryKey b.2) (entryKey a.2) = true) ∧
    prioritize_containers ([] : List (String × PrioEntry)) = [] :=
  claim_C5_prioritize_sorted prioExample (by decide)

/-- Claim C10: `prioritize_containers` is total and all-or-nothing — when
any entry is missing the `cpu` or the `mem` key (so that computing its
sort key would raise `KeyError`), the whole call returns the empty list
rather than a partial ordering. -/
theorem claim_C10_prioritize_all_or_nothing (m : List (String × PrioEntry))
    (h : ∃ p ∈ m, p.2.cpu = none ∨ p.2.mem = none) :
    prioritize_containers m = [] := by
  obtain ⟨p, hp, hkey⟩ := h
  unfold prioritize_containers
  rw [if_neg, if_neg]
  · rw [List.all_eq_true]
    intro hall
    have := hall p hp
    rcases hkey with hk | hk <;> rw [hk] at this <;> simp at this
  · rw [List.isEmpty_iff]
    intro hnil
    rw [hnil] at hp
    exact List.not_mem_nil p hp

/-- Witness for claim C10 at a concrete map whose first entry lacks the
`cpu` key. -/
theorem claim_C10_witness :
    prioritize_containers
      [("101", { cpu := none, mem := some 1 }),
       ("102", { cpu := some 20, mem := some 1 })] = [] :=
  claim_C10_prioritize_all_or_nothing _ (by decide)

/-- Claim C4: a per-container pipeline that deterministically fails
(raises or returns no data) for one container is excluded from the
collected result map, while every sibling container whose pipeline
produced a data snapshot keeps exactly its entry. -/
theorem claim_C4_collect_isolation
    (pipeline : String → Except String (Option ContainerData))
    (ids : List String) (bad : String)
    (hbad : ∀ d, pipeline bad ≠ .ok (some d)) :
    (∀ c ∈ ids, ∀ d, pipeline c = .ok (some d) →
      (c, d) ∈ collectFromPipeline pipeline ids) ∧
    (∀ d, (bad, d) ∉ collectFromPipeline pipeline ids) := by
  rw [collectFromPipeline_eq]
  constructor
  · intro c hc d hd
    rw [List.mem_filterMap]
    exact ⟨c, hc, by rw [hd]⟩
  · intro d hmem
    rw [List.mem_filterMap] at hmem
    obtain ⟨c, _, hc⟩ := hmem
    revert hc
    cases hpc : pipeline c with
    | error e => simp
    | ok od =>
      cases od with
      | none => simp
      | some d' =>
        intro hc
        simp only [Option.some.injEq, Prod.mk.injEq] at hc
        exact hbad d (hc.1 ▸ hpc.symm ▸ (by rw [hc.2]))

/-- Concrete pipeline for the collection-isolation witness: container
`bad` produces no data, every other container produces a snapshot. -/
def pipelineExample : String → Except String (Option ContainerData) := fun ctid =>
  if ctid = "bad" then .ok none
  else .ok (some { cpu := 10, mem := 5, initial_cores := 2, initial_memory := 1024 })

/-- Witness for claim C4: with three containers of which `bad` fails, the
two siblings keep their snapshots and `bad` is omitted. -/
theorem claim_C4_witness :
    (∀ c ∈ ["101", "bad", "102"], ∀ d, pipelineExample c = .ok (some d) →
      (c, d) ∈ collectFromPipeline pipelineExample ["101", "bad", "102"]) ∧
    (∀ d, ("bad", d) ∉ collectFromPipeline pipelineExample ["101", "bad", "102"]) :=
  claim_C4_collect_isolation pipelineExample ["101", "bad", "102"] "bad"
    (by intro d h; simp [pipelineExample] at h)

/-- Claim C1 (amended): the CPU probe runs one single estimation command;
if the executor yields no result, or the output does not parse as a float,
`get_cpu_usage` returns exactly `0.0` together with failure log lines
instead of raising; a parseable reading is returned unchanged. -/
theorem claim_C1_cpu_probe (exec : Exec) (ctid : String) :
    (exec (cpuCmd ctid) = none →
      get_cpu_usage exec ctid =
        (0, ["Failed to retrieve CPU usage for container " ++ ctid])) ∧
    (∀ s, exec (cpuCmd ctid) = some s → pyFloatOfString s = none →
      get_cpu_usage exec ctid =
        (0, ["Failed to convert CPU usage to float for container " ++ ctid,
             "Failed to retrieve CPU usage for container " ++ ctid])) ∧
    (∀ s v, exec (cpuCmd ctid) = some s → pyFloatOfString s = some v →
      get_cpu_usage exec ctid = (v, [])) := by
  refine ⟨?_, ?_, ?_⟩
  · intro h; unfold get_cpu_usage; rw [h]
  · intro s hs hp; unfold get_cpu_usage; rw [hs]; simp [hp]
  · intro s v hs hp; unfold get_cpu_usage; rw [hs]; simp [hp]

/-- Witness for claim C1: an executor that fails on every command makes
the CPU probe return `0.0` with the failure log line. -/
theorem claim_C1_witness :
    get_cpu_usage (fun _ => none) "100" =
      (0, ["Failed to retrieve CPU usage for container " ++ "100"]) :=
  (claim_C1_cpu_probe (fun _ => none) "100").1 rfl

/-- Executor refuting the original claim C1: the single CPU command
returns the reading `-5`. -/
def execNegCpu : Exec := fun c => if c = cpuCmd "100" then some "-5" else none

/-- Counterexample to claim C1 as stated: a negative reading is returned
unchanged by `get_cpu_usage`, not replaced by `0.0` (and no second
estimation strategy exists to be attempted). -/
theorem claim_C1_counterexample :
    (get_cpu_usage execNegCpu "100").1 = -5 ∧ ¬ ((-5 : Rat) = 0) :=
  ⟨by decide, by decide⟩

/-- Executor exhibiting the zero-total memory reading: used memory `100`,
total memory `0`. -/
def execZeroTotal : Exec := fun c =>
  if c = memUsedCmd "100" then some "100"
  else if c = memTotalCmd "100" then some "0" else none

/-- Claim C2 evaluated at the failing input: a zero reported total memory
raises `ZeroDivisionError` out of `get_memory_usage` (the `except
ValueError` clause does not catch it), while a plain read failure does
return `0.0` with a log line as the claim says. -/
theorem claim_C2_zero_total_raises :
    get_memory_usage execZeroTotal "100" = .error "ZeroDivisionError" ∧
    get_memory_usage (fun _ => none) "100" =
      .ok (0, ["Failed to retrieve memory usage for container " ++ "100"]) :=
  ⟨rfl, rfl⟩

/-- Claim C3 evaluated at the failing input: when the executor yields no
result for the container-listing query, `get_containers` raises
`AttributeError` (from `None.splitlines()`), and the exception propagates
out of `collect_container_data`, aborting the whole collection cycle. -/
theorem claim_C3_absent_listing_raises :
    get_containers (fun _ => none) [] = .error "AttributeError" ∧
    collect_container_data (fun _ => none) [] = .error "AttributeError" :=
  ⟨rfl, rfl⟩

/-- Claim C6: writing a backup for a container and then loading it returns
exactly the stored settings, and loading a container that never had a
backup written returns `none`. -/
theorem claim_C6_backup_roundtrip (store : BackupStore) (ctid other : String)
    (s : ContainerSettings) (h : store other = none) :
    (load_backup_settings (backup_container_settings store ctid s) ctid).1 = some s ∧
    (load_backup_settings store other).1 = none := by
  constructor
  · unfold load_backup_settings backup_container_settings
    simp
  · unfold load_backup_settings
    rw [h]

/-- Witness for claim C6 on the empty backup directory. -/
theorem claim_C6_witness :
    (load_backup_settings
        (backup_container_settings (fun _ => none) "100" { cores := 2, memory := 1024 })
        "100").1 = some { cores := 2, memory := 1024 } ∧
    (load_backup_settings (fun _ => none) "101").1 = none :=
  claim_C6_backup_roundtrip (fun _ => none) "100" "101" { cores := 2, memory := 1024 } rfl

/-- Claim C7: rollback leaves the backup store unchanged, so two
consecutive rollbacks with no intervening backup issue the same two
restore commands (cores, then memory); with no stored backup it issues no
mutation command and surfaces the no-backup warning. -/
theorem claim_C7_rollback_idempotent (store : BackupStore) (ctid ctidNB : String)
    (s : ContainerSettings) (hs : store ctid = some s) (hnb : store ctidNB = none) :
    (rollback_container_settings store ctid).1 = store ∧
    (rollback_container_settings store ctid).2.1 =
      ["pct set " ++ ctid ++ " -cores " ++ toString s.cores,
       "pct set " ++ ctid ++ " -memory " ++ toString s.memory] ∧
    (rollback_container_settings (rollback_container_settings store ctid).1 ctid).2.1 =
      (rollback_container_settings store ctid).2.1 ∧
    (rollback_container_settings store ctidNB).2.1 = [] ∧
    (rollback_container_settings store ctidNB).2.2 =
      ["No backup found for container " ++ ctidNB] := by
  simp only [rollback_container_settings, load_backup_settings, hs, hnb]
  simp

/-- Backup store holding settings for container `100` only, used by the
rollback witness. -/
def storeExample : BackupStore := fun k =>
  if k = "100" then some { cores := 2, memory := 1024 } else none

/-- Witness for claim C7 at a concrete store. -/
theorem claim_C7_witness :
    (rollback_container_settings storeExample "100").1 = storeExample ∧
    (rollback_container_settings storeExample "100").2.1 =
      ["pct set " ++ "100" ++ " -cores " ++ toString (2 : Int),
       "pct set " ++ "100" ++ " -memory " ++ toString (1024 : Int)] ∧
    (rollback_container_settings (rollback_container_settings storeExample "100").1 "100").2.1 =
      (rollback_container_settings storeExample "100").2.1 ∧
    (rollback_container_settings storeExample "101").2.1 = [] ∧
    (rollback_container_settings storeExample "101").2.2 =
      ["No backup found for container " ++ "101"] :=
  claim_C7_rollback_idempotent storeExample "100" "101" { cores := 2, memory := 1024 } rfl rfl

/-- Claim C8: for every non-negative total core count and reserve
percentage, `get_total_cores` returns the total minus
`max 1 ⌊total * reserve_percent / 100⌋` (so at least one core is always
reserved), with the concrete instances `(total 8, reserve 10%) ↦ 7` and
`(total 4, reserve 1%) ↦ 3`. -/
theorem claim_C8_available_cores (exec : Exec) (out : String) (totalCores : Int)
    (reservePercent : Rat)
    (hout : exec "nproc" = some out) (hparse : pyIntOfString out = some totalCores)
    (htot : 0 ≤ totalCores) (hres : 0 ≤ reservePercent) :
    get_total_cores exec reservePercent =
      .ok (totalCores - max 1 ⌊(totalCores : Rat) * reservePercent / 100⌋) ∧
    (∀ e : Exec, e "nproc" = some "8" → get_total_cores e 10 = .ok 7) ∧
    (∀ e : Exec, e "nproc" = some "4" → get_total_cores e 1 = .ok 3) := by
  refine ⟨?_, ?_, ?_⟩
  · have h0 : (0 : Rat) ≤ (totalCores : Rat) * reservePercent / 100 := by
      apply div_nonneg
      · exact mul_nonneg (by exact_mod_cast htot) hres
      · norm_num
    simp only [get_total_cores, hout, hparse, pyTrunc_of_nonneg _ h0]
  · intro e he
    have hp : pyIntOfString "8" = some 8 := by decide
    have h0 : (0 : Rat) ≤ ((8 : Int) : Rat) * 10 / 100 := by norm_num
    simp only [get_total_cores, he, hp, pyTrunc_of_nonneg _ h0]
    norm_num
  · intro e he
    have hp : pyIntOfString "4" = some 4 := by decide
    have h0 : (0 : Rat) ≤ ((4 : Int) : Rat) * 1 / 100 := by norm_num
    simp only [get_total_cores, he, hp, pyTrunc_of_nonneg _ h0]
    norm_num

/-- Executor reporting 8 host cores. -/
def execNproc8 : Exec := fun c => if c = "nproc" then some "8" else none

/-- Executor reporting 4 host cores. -/
def execNproc4 : Exec := fun c => if c = "nproc" then some "4" else none

/-- Witness for claim C8 at 8 cores / 10% and 4 cores / 1%. -/
theorem claim_C8_witness :
    get_total_cores execNproc8 10 =
      .ok (8 - max 1 ⌊((8 : Int) : Rat) * 10 / 100⌋) ∧
    get_total_cores execNproc8 10 = .ok 7 ∧
    get_total_cores execNproc4 1 = .ok 3 :=
  ⟨(claim_C8_available_cores execNproc8 "8" 8 10 rfl (by decide) (by decide) (by decide)).1,
   (claim_C8_available_cores execNproc8 "8" 8 10 rfl (by decide) (by decide) (by decide)).2.1
     execNproc8 rfl,
   (claim_C8_available_cores execNproc4 "4" 4 1 rfl (by decide) (by decide) (by decide)).2.2
     execNproc4 rfl⟩

/-- Executor for a full collection cycle on container `101` whose CPU
command reports `250` and whose used-memory read fails to parse. -/
def execOutOfRange : Exec := fun c =>
  if c = listContainersCmd then some "101"
  else if c = statusCmd "101" then some "status: running"
  else if c = configCoresCmd "101" then some "2"
  else if c = configMemoryCmd "101" then some "1024"
  else if c = cpuCmd "101" then some "250"
  else if c = memUsedCmd "101" then some "x"
  else if c = memTotalCmd "101" then some "1024"
  else none

/-- Counterexample to claim C9 as stated: a collection cycle produces a
snapshot whose `cpu` field is `250`, outside `[0, 100]` — the probes never
clamp their readings. -/
theorem claim_C9_counterexample :
    collect_container_data execOutOfRange [] =
      .ok [("101", { cpu := 250, mem := 0, initial_cores := 2, initial_memory := 1024 })] ∧
    ¬ ((250 : Rat) ≤ 100) := ⟨rfl, by decide⟩

/-- Claim C9 (amended): every snapshot a collection pipeline produces
carries the raw probe outputs — `cpu` is exactly the value
`get_cpu_usage` returned (unclamped, possibly outside `[0, 100]`) and
`mem` is exactly the value `get_memory_usage` returned. -/
theorem claim_C9_raw_probe_values (exec : Exec) (ig : List String) (ctid : String)
    (d : ContainerData) (h : get_container_data exec ig ctid = some d) :
    d.cpu = (get_cpu_usage exec ctid).1 ∧
    ∃ logs, get_memory_usage exec ctid = .ok (d.mem, logs) := by
  unfold get_container_data at h
  split at h
  · exact absurd h (by simp)
  · split at h
    · exact absurd h (by simp)
    · split at h
      · rename_i cores memory heq
        split at h
        · exact absurd h (by simp)
        · rename_i mem logs hmem
          injection h with h
          subst h
          exact ⟨rfl, ⟨logs, by rw [hmem]⟩⟩
      · exact absurd h (by simp)

/-- Witness for claim C9 (amended) on the `execOutOfRange` cycle: the
snapshot's fields are the raw probe values `250` and `0`. -/
theorem claim_C9_witness :
    (250 : Rat) = (get_cpu_usage execOutOfRange "101").1 ∧
    ∃ logs, get_memory_usage execOutOfRange "101" = .ok (0, logs) :=
  claim_C9_raw_probe_values execOutOfRange [] "101"
    { cpu := 250, mem := 0, initial_cores := 2, initial_memory := 1024 } rfl
